import Mathlib

/-!
Shallow embedding of the NFTMinter browser application (React UI handlers in
`src/frontend/src/App.tsx` and the `NFTMinter` component) as pure state
transition functions.

External collaborators (the injected wallet provider, the IPFS storage
endpoint helpers `uploadToIPFS` / `uploadMetadataToIPFS`, the ethers contract
calls, `atob` / `JSON.parse`, and the network `fetch`) are modelled as
environment records of `Except`-valued oracles: each field gives the outcome
the external call would return on this run.  Each handler also returns a
trace of the external calls and parent callbacks it performed, so that
claims of the form "never invokes X" are statements about the trace.
-/

/-- Gallery item, the `NFT` type of `App.tsx`: name, description and the
image reference displayed in the gallery. -/
structure NFT where
  name : String
  description : String
  image : String
deriving DecidableEq, Repr

/-- Metadata document uploaded to IPFS, the `NFTMetadata` shape used by
`handleMint` in the `NFTMinter` component: name, description and the image
content reference. -/
structure NFTMetadata where
  name : String
  description : String
  image : String
deriving DecidableEq, Repr

/-- The `MintingState` record of the `NFTMinter` component:
`{ isMinting, error, success }`. -/
structure MintingState where
  isMinting : Bool
  error : Option String
  success : Bool
deriving DecidableEq, Repr

/-- Local state of the `NFTMinter` component: the selected file (modelled by
its opaque content string), the two text fields, the opaque signer and
contract handles (presence only), the minting state record, and the preview
URL. -/
structure MinterState where
  file : Option String
  name : String
  description : String
  contract : Option Unit
  signer : Option Unit
  mintingState : MintingState
  previewUrl : Option String
deriving DecidableEq, Repr

/-- Outcomes of the external calls the mint flow performs, in the order
`handleMint` would make them: `uploadToIPFS` on the selected file,
`uploadMetadataToIPFS` on the metadata document, `contract.mintNFT` on the
metadata URI (returning an opaque transaction handle), and `tx.wait`.
A thrown JS exception is modelled as `Except.error msg` carrying the message
that `error instanceof Error ? error.message : ...` would extract. -/
structure MintEnv where
  uploadToIPFS : String → Except String String
  uploadMetadataToIPFS : NFTMetadata → Except String String
  mintNFT : String → Except String Nat
  txWait : Nat → Except String Unit

/-- Observable actions of one `handleMint` run: the two storage uploads, the
contract mint call, the confirmation wait, and the `onNFTCreated` callback
into the parent. -/
inductive MintEffect where
  | uploadImage (file : String)
  | uploadMetadata (metadata : NFTMetadata)
  | mintCall (uri : String)
  | txWaitCall (tx : Nat)
  | nftCreated (nft : NFT)
deriving DecidableEq, Repr

/-- The `MintingState` value `{ isMinting: false, error: msg, success: false }`
written by every failure branch of `handleMint`. -/
def mintError (msg : String) : MintingState :=
  { isMinting := false, error := some msg, success := false }

/-- The `handleMint` handler of the `NFTMinter` component.  It takes the
active account passed down from `App`, the environment of external-call
outcomes, and the component state; it returns the successor state and the
trace of effects performed.  Branches mirror the source: the two
precondition guards, then the sequential upload / upload / mint / wait
pipeline inside `try`, whose `catch` writes the failure message into
`mintingState`; on full success the new NFT is reported via `onNFTCreated`
(recorded as an effect), the success flag is set and the form is cleared. -/
def handleMint (account : Option String) (env : MintEnv) (s : MinterState) :
    MinterState × List MintEffect :=
  match s.file with
  | none =>
    ({ s with mintingState := mintError "Please fill in all fields" }, [])
  | some f =>
    if s.name = "" ∨ s.description = "" then
      ({ s with mintingState := mintError "Please fill in all fields" }, [])
    else if account.isNone ∨ s.contract.isNone ∨ s.signer.isNone then
      ({ s with mintingState := mintError "Please connect your wallet first" }, [])
    else
      match env.uploadToIPFS f with
      | .error e =>
        ({ s with mintingState := mintError e }, [.uploadImage f])
      | .ok imageUri =>
        let metadata : NFTMetadata :=
          { name := s.name, description := s.description, image := imageUri }
        match env.uploadMetadataToIPFS metadata with
        | .error e =>
          ({ s with mintingState := mintError e },
           [.uploadImage f, .uploadMetadata metadata])
        | .ok metadataUri =>
          match env.mintNFT metadataUri with
          | .error e =>
            ({ s with mintingState := mintError e },
             [.uploadImage f, .uploadMetadata metadata, .mintCall metadataUri])
          | .ok tx =>
            match env.txWait tx with
            | .error e =>
              ({ s with mintingState := mintError e },
               [.uploadImage f, .uploadMetadata metadata, .mintCall metadataUri,
                .txWaitCall tx])
            | .ok _ =>
              ({ s with
                  file := none, name := "", description := "", previewUrl := none,
                  mintingState := { isMinting := false, error := none, success := true } },
               [.uploadImage f, .uploadMetadata metadata, .mintCall metadataUri,
                .txWaitCall tx,
                .nftCreated { name := s.name, description := s.description, image := imageUri }])

/-- The `handleNFTCreated` callback of `App`: appends the freshly minted item
to the gallery list (`setNfts(prev => [...prev, nft])`). -/
def handleNFTCreated (nft : NFT) (gallery : List NFT) : List NFT :=
  gallery ++ [nft]

/-- Replays the `onNFTCreated` callbacks of a mint-effect trace against the
gallery list held by `App`; all other effects leave the gallery untouched. -/
def applyMintEffects (gallery : List NFT) (effs : List MintEffect) : List NFT :=
  effs.foldl
    (fun g e =>
      match e with
      | .nftCreated nft => handleNFTCreated nft g
      | _ => g)
    gallery

/-- Top-level state of the `App` component: the gallery list, the loading
flag, the user-visible error banner, the active account and the connecting
flag. -/
structure AppState where
  nfts : List NFT
  loading : Bool
  error : Option String
  account : Option String
  isConnecting : Bool
deriving DecidableEq, Repr

/-- Observable action of `connectWallet`: the `eth_requestAccounts` provider
request. -/
inductive ConnectEffect where
  | requestAccounts
deriving DecidableEq, Repr

/-- The `connectWallet` handler of `App`.  `providerPresent` models whether
`window.ethereum` is injected; `reqAccounts` is the outcome of the
`eth_requestAccounts` provider request (a rejection or error is
`Except.error`).  With no provider it sets the provider-missing error and
returns without issuing the request; on request failure it sets the
retry error and clears the account; on success it adopts the first returned
account (`accounts[0]`, `none` on an empty list) and clears the error.
`isConnecting` is set on entry and reset in `finally`, so it ends `false`
on every path through the `try`. -/
def connectWallet (providerPresent : Bool) (reqAccounts : Except String (List String))
    (s : AppState) : AppState × List ConnectEffect :=
  if providerPresent = false then
    ({ s with error := some "Please install MetaMask to use this application" }, [])
  else
    match reqAccounts with
    | .ok accounts =>
      ({ s with account := accounts.head?, error := none, isConnecting := false },
       [.requestAccounts])
    | .error _ =>
      ({ s with
          error := some "Failed to connect wallet. Please try again."
          account := none
          isConnecting := false },
       [.requestAccounts])

/-- JavaScript `accounts[0] || null`: the first element of the list, with a
falsy (empty-string) first element coerced to `null`. -/
def jsFirstOrNull (accounts : List String) : Option String :=
  match accounts.head? with
  | some a => if a = "" then none else some a
  | none => none

/-- The `handleAccountsChanged` listener of `App`: replaces the active
account by `accounts[0] || null`. -/
def appHandleAccountsChanged (accounts : List String) (s : AppState) : AppState :=
  { s with account := jsFirstOrNull accounts }

/-- The `handleAccountsChanged` listener of the `NFTMinter` component: an
empty account list clears the signer and contract handles; otherwise a fresh
signer and contract are constructed and stored (`signerAcq` is the outcome
of `provider.getSigner()` there; a rejection leaves the state untouched,
since the handler awaits it before any assignment). -/
def minterHandleAccountsChanged (accounts : List String) (signerAcq : Except String Unit)
    (s : MinterState) : MinterState :=
  if accounts.length = 0 then
    { s with signer := none, contract := none }
  else
    match signerAcq with
    | .ok _ => { s with signer := some (), contract := some () }
    | .error _ => s

/-- Outcomes of the external calls the gallery loader performs:
`provider.getSigner()`, the `contract.getItemId()` counter read, the
`contract.tokenURI(id)` location-string read, the inline
`split(',')[1]` / `atob` / `JSON.parse` decode of the location string
(`none` when any of those throws), the remote metadata fetch fallback
(keyed by the raw location string; it folds in the `ipfs://` strip, the
`getIpfsUrl` gateway rewrite, the HTTP fetch, the `response.ok` check and
the JSON parse), and the `getIpfsUrl` gateway rewrite applied to the
`image` field of remotely fetched metadata. -/
structure FetchEnv where
  getSigner : Except String Unit
  getItemId : Except String Nat
  tokenURI : Nat → Except String String
  decodeInline : String → Option NFTMetadata
  fetchMetadata : String → Except String NFTMetadata
  ipfsUrl : String → String

/-- Observable actions of one `fetchNFTs` run: the counter read, the
per-token location-string read, and the remote metadata fetch (recorded with
the raw location string it resolves). -/
inductive FetchEffect where
  | getItemIdCall
  | tokenURICall (tokenId : Nat)
  | remoteFetchCall (uri : String)
deriving DecidableEq, Repr

/-- Default description substituted for a falsy `metadata.description`. -/
def defaultNFTDescription : String :=
  "This is an NFT minted on the Westend Asset Hub"

/-- Gallery item built from inline-decoded metadata: falsy name and
description fall back to defaults (`metadata.name || ...`), the image is
used as is. -/
def inlineNFT (tokenId : Nat) (md : NFTMetadata) : NFT :=
  { name := if md.name = "" then "NFT #" ++ toString tokenId else md.name,
    description := if md.description = "" then defaultNFTDescription else md.description,
    image := md.image }

/-- Gallery item built from remotely fetched metadata: same name and
description fallbacks; a truthy image is rewritten through the IPFS gateway,
a falsy one is replaced by the hard-coded placeholder. -/
def remoteNFT (tokenId : Nat) (ipfsUrl : String → String) (md : NFTMetadata) : NFT :=
  { name := if md.name = "" then "NFT #" ++ toString tokenId else md.name,
    description := if md.description = "" then defaultNFTDescription else md.description,
    image :=
      if md.image = "" then
        "https://w3s.link/ipfs/QmXoypizjW3WknFiJnKLwHCnL72vedxjQkDDP1mXWo6uco"
      else ipfsUrl md.image }

/-- The `fetchNFTs` loader of `App`.  With no account it only resets the
loading flag.  A missing provider or failed signer acquisition hits the
outer catch, which writes the failure message into the error banner.  A
failed counter read hits the middle catch, which writes the fixed banner
message and leaves the gallery untouched.  A zero counter yields the empty
gallery with no further reads.  Otherwise only token `counter - 1` is read;
a failed location read or a fully failed metadata resolution is caught and
logged only, so `setNfts` still runs on the (then empty) collected list. -/
def fetchNFTs (providerPresent : Bool) (env : FetchEnv) (s : AppState) :
    AppState × List FetchEffect :=
  match s.account with
  | none => ({ s with loading := false }, [])
  | some _ =>
    if providerPresent = false then
      ({ s with error := some "Please install MetaMask", loading := false }, [])
    else
      match env.getSigner with
      | .error e => ({ s with error := some e, loading := false }, [])
      | .ok _ =>
        match env.getItemId with
        | .error _ =>
          ({ s with
              error := some "Could not fetch your NFTs. Please try again later."
              loading := false },
           [.getItemIdCall])
        | .ok currentId =>
          if currentId = 0 then
            ({ s with nfts := [], loading := false }, [.getItemIdCall])
          else
            let tokenId := currentId - 1
            match env.tokenURI tokenId with
            | .error _ =>
              ({ s with nfts := [], loading := false },
               [.getItemIdCall, .tokenURICall tokenId])
            | .ok uri =>
              match env.decodeInline uri with
              | some md =>
                ({ s with nfts := [inlineNFT tokenId md], loading := false },
                 [.getItemIdCall, .tokenURICall tokenId])
              | none =>
                match env.fetchMetadata uri with
                | .ok md =>
                  ({ s with nfts := [remoteNFT tokenId env.ipfsUrl md], loading := false },
                   [.getItemIdCall, .tokenURICall tokenId, .remoteFetchCall uri])
                | .error _ =>
                  ({ s with nfts := [], loading := false },
                   [.getItemIdCall, .tokenURICall tokenId, .remoteFetchCall uri])

/-- Token ids whose location string a fetch-effect trace requested. -/
def tokenURIRequests (effs : List FetchEffect) : List Nat :=
  effs.foldr
    (fun e acc =>
      match e with
      | .tokenURICall i => i :: acc
      | _ => acc)
    []

/-- Remote metadata fetches a fetch-effect trace performed. -/
def remoteFetchRequests (effs : List FetchEffect) : List String :=
  effs.foldr
    (fun e acc =>
      match e with
      | .remoteFetchCall u => u :: acc
      | _ => acc)
    []

/-- One account-change round at the `App` level: the `accountsChanged`
listener updates the active account, and the effect hook keyed on `account`
re-runs `fetchNFTs` exactly when the account value actually changed. -/
def accountsChangedStep (accounts : List String) (providerPresent : Bool)
    (env : FetchEnv) (s : AppState) : AppState × List FetchEffect :=
  let s1 := appHandleAccountsChanged accounts s
  if s1.account = s.account then (s1, [])
  else fetchNFTs providerPresent env s1

/-- Message of the first failing stage of the mint pipeline for a given file,
name, description and environment; `none` when all four stages succeed. -/
def mintFailureMsg (f n d : String) (env : MintEnv) : Option String :=
  match env.uploadToIPFS f with
  | .error e => some e
  | .ok imageUri =>
    match env.uploadMetadataToIPFS { name := n, description := d, image := imageUri } with
    | .error e => some e
    | .ok metadataUri =>
      match env.mintNFT metadataUri with
      | .error e => some e
      | .ok tx =>
        match env.txWait tx with
        | .error e => some e
        | .ok _ => none

/-- Fixture: an environment in which all four mint pipeline stages succeed. -/
def mintEnvAllOk : MintEnv :=
  { uploadToIPFS := fun _ => .ok "ipfs://image-cid"
    uploadMetadataToIPFS := fun _ => .ok "ipfs://metadata-cid"
    mintNFT := fun _ => .ok 7
    txWait := fun _ => .ok () }

/-- Fixture: a fully filled mint form with a live session. -/
def filledForm : MinterState :=
  { file := some "cat.png"
    name := "Cat"
    description := "A cat"
    contract := some ()
    signer := some ()
    mintingState := { isMinting := false, error := none, success := false }
    previewUrl := some "blob:preview" }

/-- C1: a successful mint submission (file selected, name and description
non-empty, session present, both uploads and the mint and its confirmation
succeeding) appends exactly one gallery entry carrying the submitted name
and description and the image reference returned by the image upload,
clears the form fields and the preview, and sets the success flag. -/
theorem handleMint_success (a f imageUri metadataUri : String) (tx : Nat)
    (s : MinterState) (env : MintEnv) (gallery : List NFT)
    (hf : s.file = some f) (hn : s.name ≠ "") (hd : s.description ≠ "")
    (hc : s.contract = some ()) (hs : s.signer = some ())
    (h1 : env.uploadToIPFS f = .ok imageUri)
    (h2 : env.uploadMetadataToIPFS
          { name := s.name, description := s.description, image := imageUri } = .ok metadataUri)
    (h3 : env.mintNFT metadataUri = .ok tx)
    (h4 : env.txWait tx = .ok ()) :
    applyMintEffects gallery (handleMint (some a) env s).2 =
      gallery ++ [{ name := s.name, description := s.description, image := imageUri }] ∧
    (handleMint (some a) env s).1.file = none ∧
    (handleMint (some a) env s).1.name = "" ∧
    (handleMint (some a) env s).1.description = "" ∧
    (handleMint (some a) env s).1.previewUrl = none ∧
    (handleMint (some a) env s).1.mintingState.success = true := by
  simp [handleMint, hf, hn, hd, hc, hs, h1, h2, h3, h4,
    applyMintEffects, handleNFTCreated]

/-- C1 witness: the success theorem applied to the concrete filled form and
all-succeeding environment. -/
theorem handleMint_success_witness :
    applyMintEffects [] (handleMint (some "0xabc") mintEnvAllOk filledForm).2 =
      [{ name := "Cat", description := "A cat", image := "ipfs://image-cid" }] ∧
    (handleMint (some "0xabc") mintEnvAllOk filledForm).1.file = none ∧
    (handleMint (some "0xabc") mintEnvAllOk filledForm).1.name = "" ∧
    (handleMint (some "0xabc") mintEnvAllOk filledForm).1.description = "" ∧
    (handleMint (some "0xabc") mintEnvAllOk filledForm).1.previewUrl = none ∧
    (handleMint (some "0xabc") mintEnvAllOk filledForm).1.mintingState.success = true :=
  handleMint_success "0xabc" "cat.png" "ipfs://image-cid" "ipfs://metadata-cid" 7
    filledForm mintEnvAllOk [] rfl (by decide) (by decide) rfl rfl rfl rfl rfl rfl

/-- C2: a mint submission with no selected file, an empty name, an empty
description, or a missing account / contract / signer performs no external
call at all (empty effect trace, so in particular neither upload nor the
mint entry point run), sets an immediate error message with the in-flight
and success flags clear, and leaves the form fields, the preview, and the
gallery list unchanged. -/
theorem handleMint_precondition (account : Option String) (s : MinterState)
    (env : MintEnv) (gallery : List NFT)
    (h : s.file = none ∨ s.name = "" ∨ s.description = "" ∨
         account = none ∨ s.contract = none ∨ s.signer = none) :
    (handleMint account env s).2 = [] ∧
    (∃ m, (handleMint account env s).1.mintingState.error = some m) ∧
    (handleMint account env s).1.mintingState.isMinting = false ∧
    (handleMint account env s).1.mintingState.success = false ∧
    (handleMint account env s).1.file = s.file ∧
    (handleMint account env s).1.name = s.name ∧
    (handleMint account env s).1.description = s.description ∧
    (handleMint account env s).1.previewUrl = s.previewUrl ∧
    applyMintEffects gallery (handleMint account env s).2 = gallery := by
  rcases hfile : s.file with _ | f
  · simp [handleMint, hfile, mintError, applyMintEffects]
  · by_cases hcond : s.name = "" ∨ s.description = ""
    · simp [handleMint, hfile, hcond, mintError, applyMintEffects]
    · have hacc : account = none ∨ s.contract = none ∨ s.signer = none := by
        rcases h with h | h | h | h | h | h
        · rw [hfile] at h; cases h
        · exact absurd (Or.inl h) hcond
        · exact absurd (Or.inr h) hcond
        · exact Or.inl h
        · exact Or.inr (Or.inl h)
        · exact Or.inr (Or.inr h)
      rcases hacc with hx | hx | hx <;>
        simp [handleMint, hfile, hcond, hx, mintError, applyMintEffects]

/-- C2 witness: the precondition theorem applied to the filled form with the
account missing. -/
theorem handleMint_precondition_witness :
    (handleMint none mintEnvAllOk filledForm).2 = [] ∧
    (∃ m, (handleMint none mintEnvAllOk filledForm).1.mintingState.error = some m) ∧
    (handleMint none mintEnvAllOk filledForm).1.mintingState.isMinting = false ∧
    (handleMint none mintEnvAllOk filledForm).1.mintingState.success = false ∧
    (handleMint none mintEnvAllOk filledForm).1.file = filledForm.file ∧
    (handleMint none mintEnvAllOk filledForm).1.name = filledForm.name ∧
    (handleMint none mintEnvAllOk filledForm).1.description = filledForm.description ∧
    (handleMint none mintEnvAllOk filledForm).1.previewUrl = filledForm.previewUrl ∧
    applyMintEffects [] (handleMint none mintEnvAllOk filledForm).2 = [] :=
  handleMint_precondition none filledForm mintEnvAllOk []
    (Or.inr (Or.inr (Or.inr (Or.inl rfl))))

/-- C3: a mint submission that passes the precondition checks but fails at
any later stage (image upload, metadata upload, mint call, or confirmation
wait) ends with the minting state holding exactly the first failing stage's
message, the in-flight and success flags clear, the form fields and preview
untouched (no rollback), and the gallery list unchanged. -/
theorem handleMint_stage_failure (a f e : String)
    (s : MinterState) (env : MintEnv) (gallery : List NFT)
    (hf : s.file = some f) (hn : s.name ≠ "") (hd : s.description ≠ "")
    (hc : s.contract = some ()) (hs : s.signer = some ())
    (hfail : mintFailureMsg f s.name s.description env = some e) :
    (handleMint (some a) env s).1.mintingState = mintError e ∧
    (handleMint (some a) env s).1.file = s.file ∧
    (handleMint (some a) env s).1.name = s.name ∧
    (handleMint (some a) env s).1.description = s.description ∧
    (handleMint (some a) env s).1.previewUrl = s.previewUrl ∧
    applyMintEffects gallery (handleMint (some a) env s).2 = gallery := by
  rcases h1 : env.uploadToIPFS f with e1 | imageUri
  · simp only [mintFailureMsg, h1, Option.some.injEq] at hfail
    subst hfail
    simp [handleMint, hf, hn, hd, hc, hs, h1, applyMintEffects]
  · rcases h2 : env.uploadMetadataToIPFS
        { name := s.name, description := s.description, image := imageUri } with e2 | metadataUri
    · simp only [mintFailureMsg, h1, h2, Option.some.injEq] at hfail
      subst hfail
      simp [handleMint, hf, hn, hd, hc, hs, h1, h2, applyMintEffects]
    · rcases h3 : env.mintNFT metadataUri with e3 | tx
      · simp only [mintFailureMsg, h1, h2, h3, Option.some.injEq] at hfail
        subst hfail
        simp [handleMint, hf, hn, hd, hc, hs, h1, h2, h3, applyMintEffects]
      · rcases h4 : env.txWait tx with e4 | u
        · simp only [mintFailureMsg, h1, h2, h3, h4, Option.some.injEq] at hfail
          subst hfail
          simp [handleMint, hf, hn, hd, hc, hs, h1, h2, h3, h4, applyMintEffects]
        · simp only [mintFailureMsg, h1, h2, h3, h4] at hfail
          cases hfail

/-- Fixture: an environment whose image upload fails. -/
def mintEnvUploadFails : MintEnv :=
  { uploadToIPFS := fun _ => .error "pinning service unavailable"
    uploadMetadataToIPFS := fun _ => .ok "ipfs://metadata-cid"
    mintNFT := fun _ => .ok 7
    txWait := fun _ => .ok () }

/-- C3 witness: the stage-failure theorem applied to the filled form and the
environment whose image upload fails. -/
theorem handleMint_stage_failure_witness :
    (handleMint (some "0xabc") mintEnvUploadFails filledForm).1.mintingState =
      mintError "pinning service unavailable" ∧
    (handleMint (some "0xabc") mintEnvUploadFails filledForm).1.file = filledForm.file ∧
    (handleMint (some "0xabc") mintEnvUploadFails filledForm).1.name = filledForm.name ∧
    (handleMint (some "0xabc") mintEnvUploadFails filledForm).1.description =
      filledForm.description ∧
    (handleMint (some "0xabc") mintEnvUploadFails filledForm).1.previewUrl =
      filledForm.previewUrl ∧
    applyMintEffects [] (handleMint (some "0xabc") mintEnvUploadFails filledForm).2 = [] :=
  handleMint_stage_failure "0xabc" "cat.png" "pinning service unavailable"
    filledForm mintEnvUploadFails [] rfl (by decide) (by decide) rfl rfl rfl

/-- C8: calling `connectWallet` with no injected provider sets the
provider-missing error, issues no provider request, and leaves the (unset)
account unset. -/
theorem connectWallet_no_provider (reqAccounts : Except String (List String))
    (s : AppState) (hacc : s.account = none) :
    (connectWallet false reqAccounts s).1.error =
      some "Please install MetaMask to use this application" ∧
    (connectWallet false reqAccounts s).1.account = none ∧
    (connectWallet false reqAccounts s).2 = [] := by
  simp [connectWallet, hacc]

/-- Fixture: the initial `App` state before any connection. -/
def freshApp : AppState :=
  { nfts := [], loading := true, error := none, account := none, isConnecting := false }

/-- C8 witness: the provider-missing theorem applied to the fresh state. -/
theorem connectWallet_no_provider_witness :
    (connectWallet false (Except.ok ["0xabc"]) freshApp).1.error =
      some "Please install MetaMask to use this application" ∧
    (connectWallet false (Except.ok ["0xabc"]) freshApp).1.account = none ∧
    (connectWallet false (Except.ok ["0xabc"]) freshApp).2 = [] :=
  connectWallet_no_provider (Except.ok ["0xabc"]) freshApp rfl

/-- C10: when a provider is present but the `eth_requestAccounts` request
fails (for example the user rejects the prompt), `connectWallet` sets the
active account to `none` afterwards, whatever account was active before. -/
theorem connectWallet_failure_clears_account (e : String) (s : AppState) :
    (connectWallet true (Except.error e) s).1.account = none := by
  simp [connectWallet]

/-- C9: an `accountsChanged` event carrying an empty account list clears the
active account in `App` and clears both the signer and the contract handle
in the `NFTMinter` component. -/
theorem accountsChanged_empty_clears (s : AppState) (m : MinterState)
    (signerAcq : Except String Unit) :
    (appHandleAccountsChanged [] s).account = none ∧
    (minterHandleAccountsChanged [] signerAcq m).signer = none ∧
    (minterHandleAccountsChanged [] signerAcq m).contract = none := by
  simp [appHandleAccountsChanged, jsFirstOrNull, minterHandleAccountsChanged]

/-- C5: a gallery load with an active account and a nonzero counter `n`
requests the location string of exactly one token, the one with id
`n - 1`, and of no other token id — on every resolution branch. -/
theorem fetchNFTs_single_token (s : AppState) (env : FetchEnv) (a : String) (n : Nat)
    (hacc : s.account = some a) (hsig : env.getSigner = .ok ())
    (hctr : env.getItemId = .ok n) (hn : n ≠ 0) :
    tokenURIRequests (fetchNFTs true env s).2 = [n - 1] := by
  rcases hu : env.tokenURI (n - 1) with e | uri
  · simp [fetchNFTs, hacc, hsig, hctr, hn, hu, tokenURIRequests]
  · rcases hdec : env.decodeInline uri with _ | md
    · rcases hfm : env.fetchMetadata uri with e2 | md2 <;>
        simp [fetchNFTs, hacc, hsig, hctr, hn, hu, hdec, hfm, tokenURIRequests]
    · simp [fetchNFTs, hacc, hsig, hctr, hn, hu, hdec, tokenURIRequests]

/-- Fixture: a connected `App` state with an empty gallery. -/
def connectedApp : AppState :=
  { nfts := [], loading := true, error := none, account := some "0xabc", isConnecting := false }

/-- Fixture: a loader environment with counter 3 whose inline decode and
remote fetch both fail. -/
def fetchEnvResolutionFails : FetchEnv :=
  { getSigner := .ok ()
    getItemId := .ok 3
    tokenURI := fun _ => .ok "ipfs://meta-cid"
    decodeInline := fun _ => none
    fetchMetadata := fun _ => .error "gateway down"
    ipfsUrl := fun c => c }

/-- C5 witness: the single-token theorem applied to the connected state and
the counter-3 environment. -/
theorem fetchNFTs_single_token_witness :
    tokenURIRequests (fetchNFTs true fetchEnvResolutionFails connectedApp).2 = [2] :=
  fetchNFTs_single_token connectedApp fetchEnvResolutionFails "0xabc" 3
    rfl rfl rfl (by decide)

/-- C6: a gallery load whose counter read returns zero sets the gallery to
the empty list and performs only that counter read: no per-token
location-string read and no remote fetch. -/
theorem fetchNFTs_zero_counter (s : AppState) (env : FetchEnv) (a : String)
    (hacc : s.account = some a) (hsig : env.getSigner = .ok ())
    (hctr : env.getItemId = .ok 0) :
    (fetchNFTs true env s).1.nfts = [] ∧
    (fetchNFTs true env s).2 = [.getItemIdCall] ∧
    tokenURIRequests (fetchNFTs true env s).2 = [] ∧
    remoteFetchRequests (fetchNFTs true env s).2 = [] := by
  simp [fetchNFTs, hacc, hsig, hctr, tokenURIRequests, remoteFetchRequests]

/-- Fixture: a loader environment whose counter read returns zero. -/
def fetchEnvZero : FetchEnv :=
  { getSigner := .ok ()
    getItemId := .ok 0
    tokenURI := fun _ => .ok ""
    decodeInline := fun _ => none
    fetchMetadata := fun _ => .error "unused"
    ipfsUrl := fun c => c }

/-- C6 witness: the zero-counter theorem applied to the connected state. -/
theorem fetchNFTs_zero_counter_witness :
    (fetchNFTs true fetchEnvZero connectedApp).1.nfts = [] ∧
    (fetchNFTs true fetchEnvZero connectedApp).2 = [.getItemIdCall] ∧
    tokenURIRequests (fetchNFTs true fetchEnvZero connectedApp).2 = [] ∧
    remoteFetchRequests (fetchNFTs true fetchEnvZero connectedApp).2 = [] :=
  fetchNFTs_zero_counter connectedApp fetchEnvZero "0xabc" rfl rfl rfl

/-- Holds when per-token metadata resolution fails for the given token: the
location-string read throws, or it succeeds but the inline decode fails and
the remote-fetch fallback fails too. -/
def metadataResolutionFails (env : FetchEnv) (tokenId : Nat) : Prop :=
  match env.tokenURI tokenId with
  | .error _ => True
  | .ok uri => env.decodeInline uri = none ∧ ∃ e, env.fetchMetadata uri = .error e

/-- C7: during a gallery load with an active account and signer, a failed
per-token metadata resolution yields a gallery of zero items with the error
banner untouched, whereas a failed outer counter read sets the user-visible
error banner. -/
theorem fetchNFTs_failure_policy (s : AppState) (env : FetchEnv) (a : String)
    (hacc : s.account = some a) (hsig : env.getSigner = .ok ()) :
    (∀ n, env.getItemId = .ok n → n ≠ 0 → metadataResolutionFails env (n - 1) →
      (fetchNFTs true env s).1.nfts = [] ∧ (fetchNFTs true env s).1.error = s.error) ∧
    (∀ e, env.getItemId = .error e →
      (fetchNFTs true env s).1.error =
        some "Could not fetch your NFTs. Please try again later.") := by
  constructor
  · intro n hctr hn hres
    rcases hu : env.tokenURI (n - 1) with e | uri
    · simp [fetchNFTs, hacc, hsig, hctr, hn, hu]
    · simp only [metadataResolutionFails, hu] at hres
      obtain ⟨hdec, e2, hfm⟩ := hres
      simp [fetchNFTs, hacc, hsig, hctr, hn, hu, hdec, hfm]
  · intro e hctr
    simp [fetchNFTs, hacc, hsig, hctr]

/-- C7 witness: the failure-policy theorem applied to the connected state and
the counter-3 environment whose inline decode and remote fetch both fail,
instantiated at token 2. -/
theorem fetchNFTs_failure_policy_witness :
    (fetchNFTs true fetchEnvResolutionFails connectedApp).1.nfts = [] ∧
    (fetchNFTs true fetchEnvResolutionFails connectedApp).1.error = connectedApp.error :=
  (fetchNFTs_failure_policy connectedApp fetchEnvResolutionFails "0xabc" rfl rfl).1
    3 rfl (by decide) ⟨rfl, "gateway down", rfl⟩

/-- Fixture: a loader environment never consulted by the account-unset path
of an account-change round. -/
def trivialFetchEnv : FetchEnv :=
  { getSigner := .ok ()
    getItemId := .ok 0
    tokenURI := fun _ => .error "unused"
    decodeInline := fun _ => none
    fetchMetadata := fun _ => .error "unused"
    ipfsUrl := fun c => c }

/-- Fixture: an `App` state holding one gallery entry derived under the
currently active account. -/
def staleGalleryState : AppState :=
  { nfts := [{ name := "Old", description := "minted under the previous account",
               image := "ipfs://old-cid" }]
    loading := false
    error := none
    account := some "0xAAA"
    isConnecting := false }

/-- C4: evaluation of an account-change round at a concrete input showing
the stale gallery is kept.  When the `accountsChanged` event carries an
empty list, the active account becomes unset, the re-run of `fetchNFTs`
returns early on the missing account, and the gallery entry derived under
the previous account survives instead of being discarded. -/
theorem accountsChanged_unset_keeps_stale_gallery :
    (accountsChangedStep [] true trivialFetchEnv staleGalleryState).1.account = none ∧
    (accountsChangedStep [] true trivialFetchEnv staleGalleryState).1.nfts =
      staleGalleryState.nfts ∧
    staleGalleryState.nfts ≠ [] :=
  ⟨rfl, rfl, by decide⟩
